import Mathlib

/-!
Verification of the localtuya core (`custom_components/localtuya/common.py` and
`custom_components/localtuya/climate.py`) against its natural-language
specification.

Python dictionaries are embedded as insertion-ordered association lists with
unique keys (a real Python `dict` never holds a duplicate key); values live in
the small universe `PyVal` of objects that actually flow through the code.
-/

namespace LocalTuya

/-- The Python values handled by the reviewed code: strings, booleans,
integers, `None`, and (nested) dictionaries with string keys. -/
inductive PyVal where
  | vStr (s : String)
  | vBool (b : Bool)
  | vInt (n : Int)
  | vNone
  | vDict (entries : List (String × PyVal))

/-- A Python `dict` with string keys, as an insertion-ordered association
list. -/
abbrev Dict := List (String × PyVal)

/-- Python truthiness (`if x:`) for the values of `PyVal`: `None`, `False`,
`0`, the empty string and the empty dict are falsy, everything else truthy. -/
def pyTruthy : PyVal → Bool
  | .vStr s => if s = "" then false else true
  | .vBool b => b
  | .vInt n => if n = 0 then false else true
  | .vNone => false
  | .vDict [] => false
  | .vDict (_ :: _) => true

/-- `x is None` check. -/
def isNone : PyVal → Bool
  | .vNone => true
  | _ => false

/-- Truthiness of an optional string argument (`if cid:` where `cid` is
`None` or a string): `None` and the empty string are falsy. -/
def strTruthy : Option String → Bool
  | none => false
  | some s => if s = "" then false else true

/-- Python `==` between an arbitrary value and a string literal: true only
for the equal string. -/
def eqPyStr (v : PyVal) (s : String) : Bool :=
  match v with
  | .vStr t => t = s
  | _ => false

/-- `d.get(k)` / `k in d`: first (only, for unique keys) binding of `k`. -/
def dlookup {α : Type} : List (String × α) → String → Option α
  | [], _ => none
  | (k, v) :: rest, key => if k = key then some v else dlookup rest key

/-- `d[k] = v`: overwrite the binding of `k` in place, or append it. -/
def dinsert {α : Type} : List (String × α) → String → α → List (String × α)
  | [], key, val => [(key, val)]
  | (k, v) :: rest, key, val =>
      if k = key then (k, val) :: rest else (k, v) :: dinsert rest key val

/-- `del d[k]`: remove the binding of `k`. -/
def ddel {α : Type} : List (String × α) → String → List (String × α)
  | [], _ => []
  | (k, v) :: rest, key =>
      if k = key then ddel rest key else (k, v) :: ddel rest key

/-- `base.update(upd)`: key-wise overwrite of `base` with every binding of
`upd`, in insertion order. -/
def dupdate {α : Type} (base upd : List (String × α)) : List (String × α) :=
  upd.foldl (fun acc kv => dinsert acc kv.1 kv.2) base

/-- Left-biased choice on `Option` (first dictionary consulted wins). -/
def oOr {α : Type} : Option α → Option α → Option α
  | some v, _ => some v
  | none, b => b

theorem dlookup_dinsert {α : Type} (d : List (String × α)) (k : String) (v : α)
    (k' : String) :
    dlookup (dinsert d k v) k' = if k' = k then some v else dlookup d k' := by
  induction d with
  | nil =>
      simp only [dinsert, dlookup]
      by_cases h : k' = k
      · simp [h]
      · simp [h, Ne.symm h]
  | cons hd tl ih =>
      obtain ⟨a, b⟩ := hd
      simp only [dinsert]
      by_cases hak : a = k
      · subst hak
        simp only [if_pos rfl, dlookup]
        by_cases h : k' = a
        · simp [h]
        · simp [h, Ne.symm h]
      · simp only [if_neg hak, dlookup, ih]
        by_cases hk : k' = k
        · subst hk
          simp [hak]
        · simp [hk]

theorem dlookup_ddel_self {α : Type} (d : List (String × α)) (k : String) :
    dlookup (ddel d k) k = none := by
  induction d with
  | nil => simp [ddel, dlookup]
  | cons hd tl ih =>
      obtain ⟨a, b⟩ := hd
      simp only [ddel]
      by_cases h : a = k
      · simp [h, ih]
      · simp [h, dlookup, ih]

theorem dlookup_ddel_other {α : Type} (d : List (String × α)) (k k' : String)
    (h : k' ≠ k) : dlookup (ddel d k) k' = dlookup d k' := by
  induction d with
  | nil => simp [ddel]
  | cons hd tl ih =>
      obtain ⟨a, b⟩ := hd
      simp only [ddel]
      by_cases ha : a = k
      · subst ha
        simp [dlookup, Ne.symm h, ih]
      · simp [ha, dlookup, ih]

theorem dlookup_eq_none_of_not_mem {α : Type} (d : List (String × α))
    (k : String) (h : k ∉ d.map Prod.fst) : dlookup d k = none := by
  induction d with
  | nil => simp [dlookup]
  | cons hd tl ih =>
      obtain ⟨a, b⟩ := hd
      simp only [List.map_cons, List.mem_cons] at h
      push_neg at h
      simp [dlookup, Ne.symm h.1, ih h.2]

theorem dlookup_dupdate {α : Type} (upd : List (String × α)) (base : List (String × α))
    (k : String) (h : (upd.map Prod.fst).Nodup) :
    dlookup (dupdate base upd) k = oOr (dlookup upd k) (dlookup base k) := by
  induction upd generalizing base with
  | nil => simp [dupdate, dlookup, oOr]
  | cons hd tl ih =>
      obtain ⟨a, b⟩ := hd
      simp only [List.map_cons, List.nodup_cons] at h
      have step : dupdate base ((a, b) :: tl) = dupdate (dinsert base a b) tl := by
        simp [dupdate, List.foldl_cons]
      rw [step, ih (dinsert base a b) h.2]
      by_cases hk : a = k
      · subst hk
        have hnone : dlookup tl a = none := dlookup_eq_none_of_not_mem tl a h.1
        rw [dlookup_dinsert]
        simp [dlookup, hnone, oOr]
      · rw [dlookup_dinsert]
        simp [dlookup, hk, Ne.symm hk]

theorem dlookup_dupdate_isSome {α : Type} (upd base : List (String × α))
    (k : String) (h : (dlookup base k).isSome) :
    (dlookup (dupdate base upd) k).isSome := by
  induction upd generalizing base with
  | nil => simpa [dupdate] using h
  | cons hd tl ih =>
      obtain ⟨a, b⟩ := hd
      have step : dupdate base ((a, b) :: tl) = dupdate (dinsert base a b) tl := by
        simp [dupdate, List.foldl_cons]
      rw [step]
      refine ih (dinsert base a b) ?_
      rw [dlookup_dinsert]
      by_cases hk : k = a
      · simp [hk]
      · simpa [hk] using h

/-! ## `TuyaDevice` (common.py) -/

/-- Python exceptions that the modelled code can raise. -/
inductive PyErr where
  | attributeError
  | typeError
  | keyError
  | cancelledError
deriving DecidableEq

/-- `TuyaDevice.status_updated(status, cid)` (common.py lines 250-263), the
merge into the device status cache `self._status`.

```
if cid:
    if cid in self._status:
        self._status[cid].update(status[cid])
    else:
        self._status[cid] = status[cid]
else:
    self._status.update(status)
```

`none` models a raised exception: `status[cid]` raises `KeyError` when the
incoming update lacks the cid key, and `self._status[cid].update(...)` raises
when the existing entry is not a dict or the incoming entry is not a mapping.
On success the merged cache is returned; the caller then publishes exactly
this merged full snapshot on the device's dispatcher signal. -/
def status_updated (st : Dict) (status : Dict) (cid : Option String) :
    Option Dict :=
  if strTruthy cid then
    match dlookup status (cid.getD "") with
    | none => none
    | some newSub =>
      match dlookup st (cid.getD "") with
      | some (.vDict cur) =>
        match newSub with
        | .vDict ns => some (dinsert st (cid.getD "") (.vDict (dupdate cur ns)))
        | _ => none
      | some _ => none
      | none => some (dinsert st (cid.getD "") newSub)
  else
    some (dupdate st status)

/-- Connection-lifecycle state of a `TuyaDevice`: the closing flag, whether
`self._connect_task` is not `None`, and whether `self._interface` is not
`None`. -/
structure ConnState where
  isClosing : Bool
  hasConnectTask : Bool
  hasInterface : Bool
deriving DecidableEq

/-- `TuyaDevice.async_connect` (common.py lines 141-144):

```
if not self._is_closing and self._connect_task is None and not self._interface:
    self._connect_task = asyncio.create_task(self._make_connection())
```

Returns the new state and whether a new connection attempt was started. -/
def async_connect (s : ConnState) : ConnState × Bool :=
  if !s.isClosing && !s.hasConnectTask && !s.hasInterface then
    ({ s with hasConnectTask := true }, true)
  else (s, false)

/-- `TuyaDevice.close` (common.py lines 183-190):

```
self._is_closing = True
if self._connect_task is not None:
    self._connect_task.cancel()
    await self._connect_task
if self._interface is not None:
    await self._interface.close()
```

asyncio semantics (Python >= 3.8, the runtime this integration targets):
`Task.cancel()` on an unfinished task throws `asyncio.CancelledError` into the
coroutine at its suspension point; `CancelledError` derives from
`BaseException`, so the broad `except Exception` inside `_make_connection`
does not catch it and the task finishes cancelled; the subsequent
`await self._connect_task` then re-raises `CancelledError` to the caller of
`close`. Whenever `self._connect_task` is not `None` the task cannot have
finished (its own final statement, line 181, sets `self._connect_task = None`,
and the single-threaded event loop never runs it concurrently with `close`),
so the cancellation path is taken deterministically.

Returns the state after the call (the closing flag is set before any await)
together with the outcome: `ok b` where `b` records whether the transport's
`close()` was awaited, or the raised exception. -/
def close (s : ConnState) : ConnState × Except PyErr Bool :=
  let s1 := { s with isClosing := true }
  if s1.hasConnectTask then (s1, .error .cancelledError)
  else (s1, .ok s1.hasInterface)

/-! ## Sub-device refresh coordinator (common.py lines 212-230) -/

/-- The data captured by the `refresh_callback` closure created in
`TuyaDevice.refresh_subdevice`: the trigger datapoint `dp` and the optional
`initial_value` seed (Python `None` when the config omitted it, since it is
read with `.get(CONF_ZIGBEE_REFRESH_INITIAL_VALUE)`). -/
structure RefreshData where
  dp : String
  initialValue : PyVal

/-- A pending-refresh map `self._refresh_callbacks`, keyed by cid.  The
surrounding `Option` models the lazily-created attribute: `none` means the
attribute does not exist yet (`hasattr` is false) and any access other than
the guarded creation raises `AttributeError`. -/
abbrev CBMap := List (String × RefreshData)

/-- Side effects issued towards the transport by the modelled coroutines. -/
inductive Action where
  | setDps (states : Dict) (cid : Option String)
  | statusQuery (cid : Option String)

/-- The body of `refresh_callback` (common.py lines 215-224) after the
`del self._refresh_callbacks[cid]`:

```
if initial_value:
    await self._interface.set_dps({dp: initial_value}, cid)
await self.status(cid)
```

Note the truthiness test `if initial_value:` — a supplied seed of `False`,
`0`, `""` or `None` skips the seed write. -/
def callbackActions (rd : RefreshData) (cid : String) : List Action :=
  (if pyTruthy rd.initialValue then
      [Action.setDps [(rd.dp, rd.initialValue)] (some cid)]
    else []) ++ [Action.statusQuery (some cid)]

/-- `TuyaDevice.refresh_subdevice(cid, dp, value, initial_value)` (common.py
lines 212-230): create `self._refresh_callbacks` if the attribute is absent,
register the one-shot callback under `cid`, and write `{dp: value}` to the
sub-device to trigger a status push. -/
def refresh_subdevice (cbs : Option CBMap) (cid dp : String)
    (value initialValue : PyVal) : Option CBMap × List Action :=
  (some (dinsert (cbs.getD []) cid ⟨dp, initialValue⟩),
   [Action.setDps [(dp, value)] (some cid)])

/-! ## `LocalTuyaEntity` (common.py lines 275-409) -/

/-- Result of one invocation of the entity-side `_update_handler`
(common.py lines 303-318): the entity's local `self._status` afterwards, the
device's `self._refresh_callbacks` afterwards, whether the subclass status
hook `self.status_updated()` was invoked, whether
`self.schedule_update_ha_state()` was called, and the transport actions
issued (by a forwarded refresh callback). -/
structure HandlerResult where
  entityStatus : PyVal
  callbacks : Option CBMap
  hookInvoked : Bool
  scheduledUpdate : Bool
  actions : List Action

/-- `_update_handler(status)` (common.py lines 303-318):

```
if self._cid:
    status = status.get(self._cid)
    if status and self._cid in self._device._refresh_callbacks:
        await self._device._refresh_callbacks[self._cid]()
        return
if status:
    self._status = status
    self.status_updated()
else:
    self._status = {}
self.schedule_update_ha_state()
```

`payload` is what the device published: `some` full-snapshot dict, or `none`
for the disconnect sentinel (`async_dispatcher_send(..., None)`).  For a
cid-scoped entity and the sentinel payload, `status.get(self._cid)` is
`None.get(...)` and raises `AttributeError`; for a truthy sub-status when the
device attribute `_refresh_callbacks` was never created, the membership test
raises `AttributeError` (the `and` short-circuits, so a falsy sub-status
never touches the attribute).  A forwarded callback first deletes its map
entry and then issues `callbackActions`. -/
def update_handler (cid : Option String) (cbs : Option CBMap) (st0 : PyVal)
    (payload : Option Dict) : Except PyErr HandlerResult :=
  if strTruthy cid then
    match payload with
    | none => .error .attributeError
    | some pd =>
      let c := cid.getD ""
      let sub : PyVal := (dlookup pd c).getD .vNone
      if pyTruthy sub then
        match cbs with
        | none => .error .attributeError
        | some m =>
          match dlookup m c with
          | some rd => .ok ⟨st0, some (ddel m c), false, false, callbackActions rd c⟩
          | none => .ok ⟨sub, cbs, true, true, []⟩
      else .ok ⟨.vDict [], cbs, false, true, []⟩
  else
    match payload with
    | none => .ok ⟨.vDict [], cbs, false, true, []⟩
    | some pd =>
      if pyTruthy (.vDict pd) then .ok ⟨.vDict pd, cbs, true, true, []⟩
      else .ok ⟨.vDict [], cbs, false, true, []⟩

/-- `LocalTuyaEntity.dps(dp_index)` (common.py lines 364-374): look the
(stringified) index up in the local cache with `.get`; if the result is
`None` (in particular when the key is absent) emit a warning.  Returns the
value together with whether the warning was emitted; the accessor is total —
it never raises. -/
def dps (st : Dict) (dp_index : String) : PyVal × Bool :=
  let value := (dlookup st dp_index).getD .vNone
  (value, isNone value)

/-- `LocalTuyaEntity.available` (common.py lines 359-362):
`str(self._dp_id) in self._status`. -/
def available (st : Dict) (dp_id : String) : Bool :=
  (dlookup st dp_id).isSome

/-- `LocalTuyaEntity.has_config(attr)` (common.py lines 354-357):

```
value = self._config.get(attr, "-1")
return value is not None and value != "-1"
```

`value != "-1"` compares against the string `"-1"`; only the string value
`"-1"` is equal to it. -/
def has_config (config : Dict) (attr : String) : Bool :=
  match dlookup config attr with
  | none => false
  | some v => !(isNone v) && !(eqPyStr v "-1")

/-! ## `LocaltuyaClimate` (climate.py) -/

/-- Configuration key for the preset-mode datapoint.  The actual string
constant lives in `const.py`, which is not among the reviewed sources; only
its identity as a dictionary key matters. -/
def CONF_PRESET_MODE_DP : String := "preset_mode_dp"

/-- `PRESET_REMAP` (climate.py lines 57-61): `PRESET_AWAY -> "holiday"`,
`PRESET_BOOST -> "BOOST"` (`PRESET_BOOST.upper()`), `PRESET_HOME ->
"manual"`, in insertion order. -/
def PRESET_REMAP : List (String × String) :=
  [("away", "holiday"), ("boost", "BOOST"), ("home", "manual")]

/-- `preset_modes` when the preset datapoint is configured (climate.py line
182): `[PRESET_COMFORT, PRESET_ECO] + list(PRESET_REMAP.keys())`. -/
def preset_modes_list : List String :=
  ["comfort", "eco"] ++ PRESET_REMAP.map Prod.fst

/-- A value returned by a climate property: either a normal value, or a
constructed `NotImplementedError()` instance returned (not raised) as the
"not supported" outcome. -/
inductive PropResult where
  | val (v : PyVal)
  | notImplementedErrorReturned

/-- `LocaltuyaClimate.preset_mode` (climate.py lines 163-176):

```
if (self.has_config(CONF_PRESET_MODE_DP)):
    for preset in PRESET_REMAP:
        if PRESET_REMAP[preset] == self._preset_mode:
            return preset
    if self._preset_mode in self.preset_modes:
        return self._preset_mode
    return PRESET_HOME
else:
    return NotImplementedError()
```

`pm` is the current `self._preset_mode`. -/
def preset_mode (config : Dict) (pm : PyVal) : PropResult :=
  if has_config config CONF_PRESET_MODE_DP then
    match PRESET_REMAP.find? (fun kv => eqPyStr pm kv.2) with
    | some kv => .val (.vStr kv.1)
    | none =>
      if preset_modes_list.any (fun s => eqPyStr pm s) then .val pm
      else .val (.vStr "home")
  else .notImplementedErrorReturned

/-- Outcome of `async_set_preset_mode`: a `set_dp` write of a value to the
configured datapoint, or a returned (not raised) `NotImplementedError()`. -/
inductive SetOutcome where
  | setDpCall (value : PyVal) (dpIndex : PyVal)
  | notImplementedErrorReturned

/-- `LocaltuyaClimate.async_set_preset_mode(preset_mode)` (climate.py lines
216-221):

```
if self.has_config(CONF_PRESET_MODE_DP):
    await self.set_dp(PRESET_REMAP[preset_mode] if preset_mode in PRESET_REMAP
                      else preset_mode, self._config[CONF_PRESET_MODE_DP])
else:
    return NotImplementedError()
```

`self._config[CONF_PRESET_MODE_DP]` would raise `KeyError` were the key
absent, but `has_config` being true guarantees it is present. -/
def async_set_preset_mode (config : Dict) (preset : String) :
    Except PyErr SetOutcome :=
  if has_config config CONF_PRESET_MODE_DP then
    match dlookup config CONF_PRESET_MODE_DP with
    | some dpIdx =>
        .ok (.setDpCall (.vStr ((dlookup PRESET_REMAP preset).getD preset)) dpIdx)
    | none => .error .keyError
  else .ok .notImplementedErrorReturned

/-! ## Helper lemmas about the merge -/

theorem status_updated_scoped_new (st incoming : Dict) (c : String) (sub : PyVal)
    (hc : c ≠ "") (hin : dlookup incoming c = some sub)
    (hst : dlookup st c = none) :
    status_updated st incoming (some c) = some (dinsert st c sub) := by
  simp [status_updated, strTruthy, hc, hin, hst]

theorem status_updated_scoped_merge (st incoming : Dict) (c : String)
    (sub cur : Dict) (hc : c ≠ "") (hin : dlookup incoming c = some (.vDict sub))
    (hst : dlookup st c = some (.vDict cur)) :
    status_updated st incoming (some c) =
      some (dinsert st c (.vDict (dupdate cur sub))) := by
  simp [status_updated, strTruthy, hc, hin, hst]

theorem status_updated_unscoped (st incoming : Dict) :
    status_updated st incoming none = some (dupdate st incoming) := rfl

theorem status_updated_never_removes (st incoming : Dict) (cid : Option String)
    (st' : Dict) (h : status_updated st incoming cid = some st')
    (k : String) (hks : (dlookup st k).isSome = true) :
    (dlookup st' k).isSome = true := by
  unfold status_updated at h
  split at h
  · split at h
    · exact Option.noConfusion h
    · split at h
      · split at h
        · injection h with h'
          subst h'
          rw [dlookup_dinsert]
          by_cases hk : k = cid.getD ""
          · simp [hk]
          · simpa [hk] using hks
        · exact Option.noConfusion h
      · exact Option.noConfusion h
      · injection h with h'
        subst h'
        rw [dlookup_dinsert]
        by_cases hk : k = cid.getD ""
        · simp [hk]
        · simpa [hk] using hks
  · injection h with h'
    subst h'
    exact dlookup_dupdate_isSome incoming st k hks

/-! ## The claims -/

/-- Claim C1: merge correctness of the status cache.  A cid-scoped update
creates the per-cid store if absent; when it is present, it overwrites
exactly the keys carried by the update, leaves the other keys of that store
and every other top-level key unchanged; an unscoped update applies the same
key-wise overwrite at the top level; merging `{1:"on"}` then `{2:"off"}` for
the same cid yields a cache containing both; no successful merge removes a
key. -/
theorem claim_C1 :
    (∀ (st incoming : Dict) (c : String) (sub : PyVal),
      c ≠ "" → dlookup incoming c = some sub → dlookup st c = none →
      ∃ st', status_updated st incoming (some c) = some st' ∧
        dlookup st' c = some sub ∧
        ∀ k, k ≠ c → dlookup st' k = dlookup st k) ∧
    (∀ (st incoming : Dict) (c : String) (sub cur : Dict),
      c ≠ "" → dlookup incoming c = some (.vDict sub) →
      (sub.map Prod.fst).Nodup → dlookup st c = some (.vDict cur) →
      ∃ st' merged, status_updated st incoming (some c) = some st' ∧
        dlookup st' c = some (.vDict merged) ∧
        (∀ k, dlookup merged k = oOr (dlookup sub k) (dlookup cur k)) ∧
        ∀ k, k ≠ c → dlookup st' k = dlookup st k) ∧
    (∀ (st incoming : Dict), (incoming.map Prod.fst).Nodup →
      ∃ st', status_updated st incoming none = some st' ∧
        ∀ k, dlookup st' k = oOr (dlookup incoming k) (dlookup st k)) ∧
    (∀ (st incoming : Dict) (cid : Option String) (st' : Dict),
      status_updated st incoming cid = some st' →
      ∀ k, (dlookup st k).isSome = true → (dlookup st' k).isSome = true) ∧
    (∃ s1 s2 : Dict,
      status_updated [] [("26", .vDict [("1", .vStr "on")])] (some "26") =
        some s1 ∧
      status_updated s1 [("26", .vDict [("2", .vStr "off")])] (some "26") =
        some s2 ∧
      dlookup s2 "26" =
        some (.vDict [("1", PyVal.vStr "on"), ("2", PyVal.vStr "off")])) := by
  refine ⟨?_, ?_, ?_, status_updated_never_removes, ?_⟩
  · intro st incoming c sub hc hin hst
    refine ⟨dinsert st c sub, status_updated_scoped_new st incoming c sub hc hin hst,
      ?_, ?_⟩
    · rw [dlookup_dinsert]; simp
    · intro k hk; rw [dlookup_dinsert]; simp [hk]
  · intro st incoming c sub cur hc hin hnd hst
    refine ⟨dinsert st c (.vDict (dupdate cur sub)), dupdate cur sub,
      status_updated_scoped_merge st incoming c sub cur hc hin hst, ?_, ?_, ?_⟩
    · rw [dlookup_dinsert]; simp
    · intro k; exact dlookup_dupdate sub cur k hnd
    · intro k hk; rw [dlookup_dinsert]; simp [hk]
  · intro st incoming hnd
    exact ⟨dupdate st incoming, status_updated_unscoped st incoming,
      fun k => dlookup_dupdate incoming st k hnd⟩
  · exact ⟨[("26", .vDict [("1", PyVal.vStr "on")])],
      [("26", .vDict [("1", PyVal.vStr "on"), ("2", PyVal.vStr "off")])],
      rfl, rfl, rfl⟩

/-- Claim C1, witness: the scoped-merge conjunct instantiated at a concrete
cache and update. -/
theorem claim_C1_witness :
    ∃ st' merged,
      status_updated [("26", PyVal.vDict [("1", PyVal.vStr "on")])]
        [("26", PyVal.vDict [("2", PyVal.vStr "off")])] (some "26") = some st' ∧
      dlookup st' "26" = some (.vDict merged) ∧
      (∀ k, dlookup merged k =
        oOr (dlookup [("2", PyVal.vStr "off")] k)
            (dlookup [("1", PyVal.vStr "on")] k)) ∧
      ∀ k, k ≠ "26" →
        dlookup st' k = dlookup [("26", PyVal.vDict [("1", PyVal.vStr "on")])] k :=
  claim_C1.2.1 [("26", PyVal.vDict [("1", PyVal.vStr "on")])]
    [("26", PyVal.vDict [("2", PyVal.vStr "off")])] "26"
    [("2", PyVal.vStr "off")] [("1", PyVal.vStr "on")]
    (by decide) rfl (by decide) rfl

/-- Claim C2, counterexample: the claim quantifies over every delivered
update whose payload contains the armed cid `X`.  The payload
`{"30": {}}` contains `"30"`, yet its empty sub-dict is falsy, so the handler
skips the interception branch, and the pending entry is NOT cleared: the
callback map comes back unchanged, still holding the `"30"` entry. -/
theorem claim_C2_counterexample :
    update_handler (some "30") (some [("30", ⟨"101", .vNone⟩)]) (.vDict [])
        (some [("30", .vDict [])]) =
      .ok ⟨.vDict [], some [("30", ⟨"101", .vNone⟩)], false, true, []⟩ ∧
    dlookup [("30", (⟨"101", PyVal.vNone⟩ : RefreshData))] "30" =
      some ⟨"101", .vNone⟩ :=
  ⟨rfl, rfl⟩

/-- Claim C2 (amended): after arming RefreshPending for cid `X`, the first
delivered update whose payload contains `X` with a truthy (non-empty)
sub-status does not invoke the subclass status hook and clears the pending
entry exactly once; a second such update invokes the hook normally.  (An
update carrying `X` with an empty sub-dict neither invokes the hook nor
clears the pending entry.) -/
theorem claim_C2 (c : String) (m : CBMap) (rd : RefreshData) (est : PyVal)
    (pd : Dict) (sub : PyVal) (hc : c ≠ "") (hm : dlookup m c = some rd)
    (hpd : dlookup pd c = some sub) (ht : pyTruthy sub = true) :
    update_handler (some c) (some m) est (some pd) =
      .ok ⟨est, some (ddel m c), false, false, callbackActions rd c⟩ ∧
    dlookup (ddel m c) c = none ∧
    (∀ (pd2 : Dict) (sub2 : PyVal), dlookup pd2 c = some sub2 →
      pyTruthy sub2 = true →
      update_handler (some c) (some (ddel m c)) est (some pd2) =
        .ok ⟨sub2, some (ddel m c), true, true, []⟩) := by
  refine ⟨?_, dlookup_ddel_self m c, ?_⟩
  · simp [update_handler, strTruthy, hc, hpd, ht, hm]
  · intro pd2 sub2 h2 t2
    simp [update_handler, strTruthy, hc, h2, t2, dlookup_ddel_self m c]

/-- Claim C2, witness: arming for `"30"` and delivering `{"30": {"101":
true}}` runs the callback (no hook, pending cleared, query issued). -/
theorem claim_C2_witness :
    update_handler (some "30") (some [("30", ⟨"101", .vBool false⟩)]) (.vDict [])
        (some [("30", .vDict [("101", .vBool true)])]) =
      .ok ⟨.vDict [], some [], false, false, [Action.statusQuery (some "30")]⟩ :=
  (claim_C2 "30" [("30", ⟨"101", .vBool false⟩)] ⟨"101", .vBool false⟩
    (.vDict []) [("30", .vDict [("101", .vBool true)])]
    (.vDict [("101", .vBool true)]) (by decide) rfl rfl rfl).1

/-- Claim C3, counterexample: with a refresh callback pending for cid
`"30"`, the synthetic trigger echo `{"30": {"101": true}}` is nevertheless
merged into the device status cache by `status_updated` (which performs no
interception), and that merged cache is exactly the snapshot it publishes —
refuting "discarded and never merged into the status cache nor published as
part of a snapshot". -/
theorem claim_C3_counterexample :
    dlookup [("30", (⟨"101", PyVal.vNone⟩ : RefreshData))] "30" =
      some ⟨"101", .vNone⟩ ∧
    status_updated [] [("30", .vDict [("101", .vBool true)])] (some "30") =
      some [("30", .vDict [("101", .vBool true)])] :=
  ⟨rfl, rfl⟩

/-- Claim C3 (amended): the interception happens in the entity-side update
handler, after the device-level merge and publish: the triggering update is
merged into the device status cache and is part of the published snapshot,
but the pending cid-scoped entity does not update its local state, does not
invoke its subclass status hook, and instead runs the callback (pending
cleared, optional seed write, then a genuine status query for that cid). -/
theorem claim_C3 (st : Dict) (m : CBMap) (rd : RefreshData) (c : String)
    (sd : Dict) (est : PyVal) (hc : c ≠ "") (hst : dlookup st c = none)
    (hm : dlookup m c = some rd) (hsd : sd ≠ []) :
    ∃ published : Dict,
      status_updated st [(c, .vDict sd)] (some c) = some published ∧
      dlookup published c = some (.vDict sd) ∧
      update_handler (some c) (some m) est (some published) =
        .ok ⟨est, some (ddel m c), false, false, callbackActions rd c⟩ := by
  have ht : pyTruthy (.vDict sd) = true := by
    cases sd with
    | nil => exact absurd rfl hsd
    | cons a l => rfl
  have hin : dlookup [(c, PyVal.vDict sd)] c = some (.vDict sd) := by
    simp [dlookup]
  refine ⟨dinsert st c (.vDict sd),
    status_updated_scoped_new st [(c, .vDict sd)] c (.vDict sd) hc hin hst,
    ?_, ?_⟩
  · rw [dlookup_dinsert]; simp
  · simp [update_handler, strTruthy, hc, dlookup_dinsert, ht, hm]

/-- Claim C3, witness: the amended statement at a concrete device. -/
theorem claim_C3_witness :
    ∃ published : Dict,
      status_updated [] [("30", PyVal.vDict [("101", PyVal.vBool true)])]
        (some "30") = some published ∧
      dlookup published "30" = some (.vDict [("101", PyVal.vBool true)]) ∧
      update_handler (some "30") (some [("30", ⟨"101", PyVal.vNone⟩)])
          (.vDict []) (some published) =
        .ok ⟨.vDict [], some [], false, false,
             [Action.statusQuery (some "30")]⟩ :=
  claim_C3 [] [("30", ⟨"101", PyVal.vNone⟩)] ⟨"101", PyVal.vNone⟩ "30"
    [("101", PyVal.vBool true)] (.vDict []) (by decide) rfl rfl
    (List.cons_ne_nil _ _)

/-- Claim C4: seed behaviour of the refresh callback, evaluated on the
code.  With a supplied seed of `False` the truthiness test
`if initial_value:` is falsy, so the seed write is SKIPPED and only the
status query is issued — contradicting the claim's "(including the boolean
value false)" and the spec scenario `refresh("30", "101", true, false)`.
A truthy seed issues the write then the query; an unsupplied seed (`None`)
issues only the query, as claimed. -/
theorem claim_C4 :
    callbackActions ⟨"101", .vBool false⟩ "30" =
      [Action.statusQuery (some "30")] ∧
    callbackActions ⟨"101", .vNone⟩ "30" = [Action.statusQuery (some "30")] ∧
    callbackActions ⟨"101", .vBool true⟩ "30" =
      [Action.setDps [("101", .vBool true)] (some "30"),
       Action.statusQuery (some "30")] :=
  ⟨rfl, rfl, rfl⟩

/-- Claim C5: disconnect propagation, evaluated on the code.  The sentinel
payload (`None`) delivered to a cid-scoped subscriber hits
`status.get(self._cid)` on `None` and raises `AttributeError`: the entity's
local state is not cleared and it is never marked unavailable — the claim
holds only for whole-device-scoped subscribers, for which the sentinel
clears local state, skips the hook and schedules a presentation update. -/
theorem claim_C5 (cbs : Option CBMap) (est : PyVal) :
    update_handler (some "26") cbs est none = .error .attributeError ∧
    update_handler none cbs est none = .ok ⟨.vDict [], cbs, false, true, []⟩ :=
  ⟨rfl, rfl⟩

/-- Claim C6: `async_connect` is a no-op whenever the device is closing, a
connection attempt is in flight, or the interface is already set; when none
of the guards holds, it starts exactly one attempt (setting the in-flight
task), and an immediately following call starts no second attempt. -/
theorem claim_C6 (s : ConnState) :
    ((s.isClosing = true ∨ s.hasConnectTask = true ∨ s.hasInterface = true) →
      async_connect s = (s, false)) ∧
    (s.isClosing = false → s.hasConnectTask = false → s.hasInterface = false →
      async_connect s = ({ s with hasConnectTask := true }, true) ∧
      (async_connect (async_connect s).1).2 = false) := by
  obtain ⟨c, t, i⟩ := s
  cases c <;> cases t <;> cases i <;> decide

/-- Claim C6, witness: from the idle state a single attempt starts, and a
second overlapping call is a no-op. -/
theorem claim_C6_witness :
    async_connect ⟨false, false, false⟩ = (⟨false, true, false⟩, true) ∧
    (async_connect (async_connect ⟨false, false, false⟩).1).2 = false :=
  (claim_C6 ⟨false, false, false⟩).2 rfl rfl rfl

/-- Claim C7: `close` totality, evaluated on the code.  With a connection
attempt in flight, `close` cancels the task and then `await`s it, which
re-raises `asyncio.CancelledError` out of `close`; the in-flight marker is
still set afterwards (the cancelled task never reached its final
`self._connect_task = None`), so a repeated `close` raises again — refuting
"calling close() any number of times in sequence never raises".  (Without an
in-flight attempt, `close` returns normally whether or not a transport is
open.) -/
theorem claim_C7 :
    close ⟨false, true, false⟩ = (⟨true, true, false⟩, .error .cancelledError) ∧
    close (close ⟨false, true, false⟩).1 =
      (⟨true, true, false⟩, .error .cancelledError) ∧
    close ⟨false, true, true⟩ = (⟨true, true, true⟩, .error .cancelledError) ∧
    close ⟨false, false, true⟩ = (⟨true, false, true⟩, .ok true) ∧
    close ⟨false, false, false⟩ = (⟨true, false, false⟩, .ok false) :=
  ⟨rfl, rfl, rfl, rfl, rfl⟩

/-- Claim C8: the `dps` read accessor is total (its Lean type is a plain
function — no exception outcome); for every index absent from the cached
status it returns `None` and emits the unknown-index warning. -/
theorem claim_C8 (st : Dict) (idx : String) (h : dlookup st idx = none) :
    dps st idx = (.vNone, true) := by
  simp [dps, h, isNone]

/-- Claim C8, witness: reading index `"7"` from a cache that only holds
`"1"`. -/
theorem claim_C8_witness :
    dlookup [("1", PyVal.vStr "on")] "7" = none ∧
    dps [("1", PyVal.vStr "on")] "7" = (.vNone, true) :=
  ⟨rfl, claim_C8 [("1", PyVal.vStr "on")] "7" rfl⟩

/-- Claim C9: when the preset-mode datapoint is not configured, both the
`preset_mode` getter and `async_set_preset_mode` yield the explicit
`NotImplementedError()`-returned outcome — distinguishable from every normal
value/write result and not a raised exception; when it is configured, the
getter yields a normal value and the setter issues a normal write of the
(remapped) preset to the configured datapoint. -/
theorem claim_C9 (config : Dict) (pm : PyVal) (preset : String) :
    (dlookup config CONF_PRESET_MODE_DP = none →
      preset_mode config pm = .notImplementedErrorReturned ∧
      async_set_preset_mode config preset = .ok .notImplementedErrorReturned ∧
      (∀ v, preset_mode config pm ≠ .val v) ∧
      (∀ v d, async_set_preset_mode config preset ≠ .ok (.setDpCall v d)) ∧
      (∀ e, async_set_preset_mode config preset ≠ .error e)) ∧
    (∀ dpIdx : PyVal, dlookup config CONF_PRESET_MODE_DP = some dpIdx →
      isNone dpIdx = false → eqPyStr dpIdx "-1" = false →
      (∃ v, preset_mode config pm = .val v) ∧
      async_set_preset_mode config preset =
        .ok (.setDpCall (.vStr ((dlookup PRESET_REMAP preset).getD preset))
          dpIdx)) := by
  constructor
  · intro h
    have hcfg : has_config config CONF_PRESET_MODE_DP = false := by
      simp [has_config, h]
    refine ⟨?_, ?_, ?_, ?_, ?_⟩
    · simp [preset_mode, hcfg]
    · simp [async_set_preset_mode, hcfg]
    · intro v; simp [preset_mode, hcfg]
    · intro v d; simp [async_set_preset_mode, hcfg]
    · intro e; simp [async_set_preset_mode, hcfg]
  · intro dpIdx hdp h2 h3
    have hcfg : has_config config CONF_PRESET_MODE_DP = true := by
      simp [has_config, hdp, h2, h3]
    constructor
    · rcases hfind : PRESET_REMAP.find? (fun kv => eqPyStr pm kv.2) with _ | kv
      · by_cases hany : (preset_modes_list.any fun s => eqPyStr pm s) = true
        · exact ⟨pm, by simp [preset_mode, hcfg, hfind, hany]⟩
        · rw [Bool.not_eq_true] at hany
          exact ⟨.vStr "home", by simp [preset_mode, hcfg, hfind, hany]⟩
      · exact ⟨.vStr kv.1, by simp [preset_mode, hcfg, hfind]⟩
    · simp [async_set_preset_mode, hcfg, hdp]

/-- Claim C9, witness: a configured climate (preset dp `"4"`) gets a normal
value and issues a normal remapped write; an unconfigured one yields the
returned `NotImplementedError()` outcome. -/
theorem claim_C9_witness :
    ((∃ v, preset_mode [(CONF_PRESET_MODE_DP, PyVal.vStr "4")]
        (PyVal.vStr "eco") = .val v) ∧
      async_set_preset_mode [(CONF_PRESET_MODE_DP, PyVal.vStr "4")] "away" =
        .ok (.setDpCall (.vStr "holiday") (.vStr "4"))) ∧
    preset_mode [] (PyVal.vStr "eco") = .notImplementedErrorReturned :=
  ⟨(claim_C9 [(CONF_PRESET_MODE_DP, PyVal.vStr "4")] (PyVal.vStr "eco")
      "away").2 (PyVal.vStr "4") rfl rfl rfl,
   ((claim_C9 [] (PyVal.vStr "eco") "away").1 rfl).1⟩

/-- Claim C10: the availability criterion — `available` is true exactly when
the entity's own (stringified) datapoint index is a key of its local cached
status; the handler branches that clear the local state (`{}`) therefore
always yield an unavailable entity (unscoped sentinel; cid-scoped payload
missing the cid sub-map), and an entity is available whenever its own index
is cached even if another index is absent. -/
theorem claim_C10 :
    (∀ (st : Dict) (d : String),
      available st d = true ↔ ∃ v, dlookup st d = some v) ∧
    (∀ d : String, available [] d = false) ∧
    (∀ (cbs : Option CBMap) (est : PyVal) (pd : Dict) (c : String),
      c ≠ "" → dlookup pd c = none →
      update_handler (some c) cbs est (some pd) =
        .ok ⟨.vDict [], cbs, false, true, []⟩) ∧
    (∀ (cbs : Option CBMap) (est : PyVal),
      update_handler none cbs est none = .ok ⟨.vDict [], cbs, false, true, []⟩) ∧
    (∀ (st : Dict) (d d' : String) (v : PyVal),
      dlookup st d = some v → dlookup st d' = none →
      available st d = true) := by
  refine ⟨?_, ?_, ?_, fun cbs est => rfl, ?_⟩
  · intro st d
    simp [available, Option.isSome_iff_exists]
  · intro d
    simp [available, dlookup]
  · intro cbs est pd c hc hpd
    simp [update_handler, strTruthy, hc, hpd, pyTruthy]
  · intro st d d' v hv _
    simp [available, hv]

/-- Claim C10, witness: a cid-scoped entity whose cid is absent from a flat
payload is cleared to `{}` (hence unavailable), while an entity whose own
index `"1"` is cached is available even though index `"2"` is absent. -/
theorem claim_C10_witness :
    update_handler (some "26") none (.vDict [("2", PyVal.vStr "off")])
        (some [("1", PyVal.vStr "on")]) =
      .ok ⟨.vDict [], none, false, true, []⟩ ∧
    available [("1", PyVal.vStr "on")] "1" = true ∧
    available [] "1" = false :=
  ⟨claim_C10.2.2.1 none (.vDict [("2", PyVal.vStr "off")])
      [("1", PyVal.vStr "on")] "26" (by decide) rfl,
   claim_C10.2.2.2.2 [("1", PyVal.vStr "on")] "1" "2" (.vStr "on") rfl rfl,
   claim_C10.2.1 "1"⟩

end LocalTuya
